import Mathlib

/-!
Verification development for the wd40text terminal editor.

The editor controller (src/editor.rs) and the filetype resolver
(src/filetype.rs) are embedded shallowly below.  The `Document` and `Row`
types live in repository files that are not part of the three sources given
here, so their operations are modelled from the design document (section 4.1)
and are marked as such in their doc comments.  Machine integers (`usize`) are
modelled as `Nat`; the saturating operations used by the source are made
explicit.  Terminal input is modelled as a list of decoded key events, and
the fallible file write inside `Document::save` is modelled by a boolean
outcome supplied by the environment.
-/

namespace Wd40

/-- Largest value of the 64-bit usize type. -/
def USIZE_MAX : Nat := 2 ^ 64 - 1

/-- Rust saturating_add on usize. -/
def usatAdd (a b : Nat) : Nat := min (a + b) USIZE_MAX

/-- Rust str::to_ascii_lowercase — lowercases ASCII letters only. -/
def asciiLower (s : String) : String :=
  String.mk (s.data.map (fun c =>
    if 'A' ≤ c ∧ c ≤ 'Z' then Char.ofNat (c.toNat + 32) else c))

/-- Rust str::trim: remove whitespace from both ends. -/
def rustTrim (s : String) : String :=
  String.mk (((s.data.dropWhile Char.isWhitespace).reverse.dropWhile
    Char.isWhitespace).reverse)

/-- Rust str::split with a character-predicate pattern (keeps empty pieces,
as the Rust iterator does). -/
def splitByGo (p : Char → Bool) : List Char → List Char → List (List Char)
  | [], acc => [acc.reverse]
  | c :: rest, acc =>
    if p c then acc.reverse :: splitByGo p rest []
    else splitByGo p rest (c :: acc)

/-- Rust str::split with a character predicate, on strings. -/
def rustSplitBy (p : Char → Bool) (s : String) : List String :=
  (splitByGo p s.data []).map String.mk

/-- Worker for str::split with a substring pattern: scan for the separator,
emitting the accumulated piece at each occurrence.  The fuel is the input
length plus one; every step consumes at least one character, so it never
runs out. -/
def splitOnGo (sep : List Char) : Nat → List Char → List Char → List (List Char)
  | 0, l, acc => [acc.reverse ++ l]
  | fuel + 1, l, acc =>
    match l with
    | [] => [acc.reverse]
    | c :: rest =>
      if sep.isPrefixOf (c :: rest) then
        acc.reverse :: splitOnGo sep fuel (rest.drop (sep.length - 1)) []
      else splitOnGo sep fuel rest (c :: acc)

/-- Rust str::split with a non-empty substring pattern (str::splitOn). -/
def rustSplitOn (s sep : String) : List String :=
  if sep.data.isEmpty then [s]
  else (splitOnGo sep.data (s.data.length + 1) s.data []).map String.mk

/-- Rust str::lines: split on a line feed, dropping a final empty piece and
stripping one trailing carriage return from each line. -/
def rustLines (s : String) : List String :=
  let pieces := rustSplitOn s "\n"
  let pieces2 :=
    match pieces.reverse with
    | "" :: restR => restR.reverse
    | _ => pieces
  pieces2.map (fun l => if l.data.getLastD '\n' == '\r' then l.dropRight 1 else l)

/-- Rust str::starts_with for a string prefix pattern. -/
def rustStartsWith (s pre : String) : Bool := pre.data.isPrefixOf s.data

/-- Rust str::contains / String::contains with a single-character pattern. -/
def rustContainsChar (s : String) (c : Char) : Bool := s.data.any (fun x => x == c)

/-- Key codes: the crossterm KeyCode variants the editor inspects, plus a
catch-all for every other key (matched by the wildcard arm in the source). -/
inductive Key where
  | char (c : Char)
  | enter
  | esc
  | backspace
  | delete
  | up
  | down
  | left
  | right
  | pageUp
  | pageDown
  | home
  | endKey
  | otherKey
deriving DecidableEq

/-- Key modifiers: only the CONTROL bit is inspected by the editor. -/
structure KeyMods where
  ctrl : Bool
deriving DecidableEq

/-- A decoded key event as returned by Terminal::read_key_with_modifiers. -/
abbrev Input : Type := Key × KeyMods

/-- Cursor / offset position (src/editor.rs, struct Position). -/
structure Position where
  x : Nat
  y : Nat
deriving DecidableEq

/-- Search direction (src/editor.rs, enum SearchDirection). -/
inductive SearchDirection where
  | forward
  | backward
deriving DecidableEq

/-- Modelled from the spec: the Text Buffer of section 3 (src/document.rs is
not among the given sources).  A row is one line of text; `rows` is the
ordered line list, `dirty` records unsaved changes, `file_name` is the
optional file identity. -/
structure Document where
  rows : List String
  dirty : Bool
  file_name : Option String
deriving DecidableEq

/-- Document::len — number of rows. -/
def Document.len (d : Document) : Nat := d.rows.length

/-- Document::row — the row at an index, if any. -/
def Document.row (d : Document) (y : Nat) : Option String := d.rows[y]?

/-- Document::is_dirty. -/
def Document.is_dirty (d : Document) : Bool := d.dirty

/-- Length of the row at index y, or 0 when there is no such row: the value
computed by the `if let Some(row) = self.document.row(y)` pattern in
Editor::move_cursor. -/
def widthAt (d : Document) (y : Nat) : Nat :=
  match d.row y with
  | some r => r.length
  | none => 0

/-- Modelled from the spec: Document::insert (section 4.1).  A line break
splits the row at the cursor column into two rows, the new row inserted
immediately after; any other character is inserted into the row at the given
offset.  The dirty flag is set.  A position one past the last row (the
transient end-of-document position the controller produces) appends a fresh
row. -/
def Document.insert (d : Document) (pos : Position) (c : Char) : Document :=
  if c = '\n' then
    if pos.y < d.rows.length then
      let r := d.rows.getD pos.y ""
      let before := String.mk (r.data.take pos.x)
      let after := String.mk (r.data.drop pos.x)
      { d with
        rows := d.rows.take pos.y ++ [before, after] ++ d.rows.drop (pos.y + 1)
        dirty := true }
    else
      { d with rows := d.rows ++ [""], dirty := true }
  else
    if pos.y < d.rows.length then
      let r := d.rows.getD pos.y ""
      let r2 := String.mk (r.data.take pos.x ++ [c] ++ r.data.drop pos.x)
      { d with rows := d.rows.set pos.y r2, dirty := true }
    else
      { d with rows := d.rows ++ [String.mk [c]], dirty := true }

/-- Modelled from the spec: Document::delete (section 4.1).  At the last
character slot of a row with a following row, the following row is merged
onto the current one and removed; otherwise one character is removed at the
offset; the no-op case leaves the buffer (and the dirty flag) untouched. -/
def Document.delete (d : Document) (pos : Position) : Document :=
  match d.rows[pos.y]? with
  | none => d
  | some r =>
    if pos.x = r.length ∧ pos.y + 1 < d.rows.length then
      let nxt := d.rows.getD (pos.y + 1) ""
      { d with
        rows := (d.rows.set pos.y (r ++ nxt)).eraseIdx (pos.y + 1)
        dirty := true }
    else if pos.x < r.length then
      { d with
        rows := d.rows.set pos.y (String.mk (r.data.take pos.x ++ r.data.drop (pos.x + 1)))
        dirty := true }
    else d

/-- Does the pattern string occur in r starting at character index i? -/
def substrAt (r q : String) (i : Nat) : Bool :=
  (r.data.drop i).take q.data.length == q.data

/-- First occurrence of q in r at character index start or later. -/
def rowFindFrom (r q : String) (start : Nat) : Option Nat :=
  (List.range (r.length + 1)).find? (fun i => decide (start ≤ i) && substrAt r q i)

/-- Last occurrence of q in r at character index at most bound. -/
def rowFindBefore (r q : String) (bound : Nat) : Option Nat :=
  ((List.range (r.length + 1)).filter (fun i => decide (i ≤ bound) && substrAt r q i)).getLast?

/-- Modelled from the spec: Document::find (section 4.1) — case-sensitive
substring search from the given position, scanning forward or backward and
wrapping around the whole buffer exactly once. -/
def Document.find (d : Document) (q : String) (from2 : Position) (dir : SearchDirection) :
    Option Position :=
  let n := d.rows.length
  if n = 0 then none
  else
    match dir with
    | SearchDirection.forward =>
      (List.range n).findSome? (fun k =>
        let ry := (from2.y + k) % n
        let start := if k = 0 then from2.x else 0
        (rowFindFrom (d.rows.getD ry "") q start).map (fun i => Position.mk i ry))
    | SearchDirection.backward =>
      (List.range n).findSome? (fun k =>
        let ry := (from2.y + n - k % n) % n
        let bound := if k = 0 then from2.x else (d.rows.getD ry "").length
        (rowFindBefore (d.rows.getD ry "") q bound).map (fun i => Position.mk i ry))

/-- Modelled from the spec: Document::save (section 4.1).  The file write is
fallible I/O; its outcome is the boolean parameter.  Success requires a
resolved file identity and clears the dirty flag; failure leaves the buffer
untouched. -/
def Document.save (d : Document) (writeOk : Bool) : Document × Bool :=
  if d.file_name.isSome && writeOk then ({ d with dirty := false }, true)
  else (d, false)

/-- QUIT_TIMES constant (src/editor.rs line 21). -/
def QUIT_TIMES : Nat := 3

/-- Editor state (src/editor.rs, struct Editor).  The terminal size, read
through self.terminal.size(), is carried as the two fields termWidth and
termHeight; the StatusMessage timestamp is dropped (wall-clock expiry is
render-only). -/
structure Editor where
  should_quit : Bool
  cursor_position : Position
  offset : Position
  document : Document
  status_message : String
  quit_times : Nat
  highlighted_word : Option String
  command_buffer : Option String
  termWidth : Nat
  termHeight : Nat
deriving DecidableEq

/-- Editor::scroll (src/editor.rs lines 308-323). -/
def Editor.scroll (st : Editor) : Editor :=
  let x := st.cursor_position.x
  let y := st.cursor_position.y
  let width := st.termWidth
  let height := st.termHeight
  let oy :=
    if y < st.offset.y then y
    else if y ≥ usatAdd st.offset.y height then usatAdd (y - height) 1
    else st.offset.y
  let ox :=
    if x < st.offset.x then x
    else if x ≥ usatAdd st.offset.x width then usatAdd (x - width) 1
    else st.offset.x
  { st with offset := Position.mk ox oy }

/-- Editor::move_cursor (src/editor.rs lines 324-388). -/
def Editor.move_cursor (st : Editor) (key : Key) : Editor :=
  let terminal_height := st.termHeight
  let y0 := st.cursor_position.y
  let x0 := st.cursor_position.x
  let height := st.document.len
  let width := widthAt st.document y0
  let xy : Nat × Nat :=
    match key with
    | Key.up => (x0, y0 - 1)
    | Key.down => if y0 < height then (x0, y0 + 1) else (x0, y0)
    | Key.left =>
      if x0 > 0 then (x0 - 1, y0)
      else if y0 > 0 then (widthAt st.document (y0 - 1), y0 - 1)
      else (x0, y0)
    | Key.right =>
      if x0 < width then (x0 + 1, y0)
      else if y0 < height then (0, y0 + 1)
      else (x0, y0)
    | Key.pageUp => (x0, if y0 > terminal_height then y0 - terminal_height else 0)
    | Key.pageDown =>
      (x0, if usatAdd y0 terminal_height < height then usatAdd y0 terminal_height else height)
    | Key.home => (0, y0)
    | Key.endKey => (width, y0)
    | _ => (x0, y0)
  let width2 := widthAt st.document xy.2
  let x2 := if xy.1 > width2 then width2 else xy.1
  { st with cursor_position := Position.mk x2 xy.2 }

/-- One iteration state of Editor::prompt (src/editor.rs lines 475-503).
The callback is a closure; its captured mutable environment is made explicit
as a state of type s (Editor::search captures a SearchDirection, Editor::save
captures nothing).  Keys are consumed from the input list; an exhausted list
(the real loop would block forever) yields none. -/
def promptGo {s : Type} (cb : s → Editor → Key → KeyMods → String → s × Editor)
    (ptext : String) :
    s → Editor → String → List Input → Option (s × Editor × String × List Input)
  | _, _, _, [] => none
  | cs, st, acc, (k, m) :: rest =>
    let st1 := { st with status_message := ptext ++ acc }
    match k with
    | Key.enter => some (cs, st1, acc, rest)
    | Key.esc => some (cs, st1, "", rest)
    | Key.backspace =>
      let acc2 := acc.dropRight 1
      let p := cb cs st1 k m acc2
      promptGo cb ptext p.1 p.2 acc2 rest
    | Key.char c =>
      let acc2 := acc.push c
      let p := cb cs st1 k m acc2
      promptGo cb ptext p.1 p.2 acc2 rest
    | _ =>
      let p := cb cs st1 k m acc
      promptGo cb ptext p.1 p.2 acc rest

/-- Editor::prompt (src/editor.rs lines 475-503): runs the loop, clears the
status message, and maps an empty accumulated answer to None. -/
def editorPrompt {s : Type} (cb : s → Editor → Key → KeyMods → String → s × Editor)
    (ptext : String) (cs : s) (st : Editor) (keys : List Input) :
    Option (s × Editor × Option String × List Input) :=
  (promptGo cb ptext cs st "" keys).map (fun r =>
    (r.1, { r.2.1 with status_message := "" },
      if r.2.2.1.isEmpty then none else some r.2.2.1, r.2.2.2))

/-- The do-nothing prompt callback written |_, _, _, _| {} in the source. -/
def trivialCb (cs : Unit) (st : Editor) (_k : Key) (_m : KeyMods) (_q : String) :
    Unit × Editor := (cs, st)

/-- The final match of the format prompt of Editor::save (src/editor.rs
lines 160-163): keep txt/docx/odt, replace anything else by txt. -/
def normalizeExtChoice (e2 : String) : String :=
  match e2 with
  | "txt" | "docx" | "odt" => e2
  | _ => "txt"

/-- The extension chosen by the format prompt of Editor::save (src/editor.rs
lines 150-169): trim, ASCII-lowercase, strip all leading dots, and replace
anything but txt/docx/odt by txt; an empty or cancelled answer gives txt. -/
def chosenExt (ext : Option String) : String :=
  match ext with
  | some e0 =>
    let e1 := asciiLower (rustTrim e0)
    let e2 := if rustStartsWith e1 "." then String.mk (e1.data.dropWhile (fun c => c = '.')) else e1
    normalizeExtChoice e2
  | none => "txt"

/-- The tail of Editor::save (src/editor.rs lines 173-177): attempt the
document write and report the status. -/
def finishSave (st : Editor) (writeOk : Bool) : Editor :=
  let p := st.document.save writeOk
  if p.2 then { st with document := p.1, status_message := "File saved successfully." }
  else { st with document := p.1, status_message := "Error writing file!" }

/-- Editor::save (src/editor.rs lines 138-178). -/
def Editor.save (st : Editor) (keys : List Input) (writeOk : Bool) :
    Option (Editor × List Input) :=
  match st.document.file_name with
  | some _ => some (finishSave st writeOk, keys)
  | none =>
    match editorPrompt trivialCb "name: " () st keys with
    | none => none
    | some (_, st1, none, rest) =>
      some ({ st1 with status_message := "aborted" }, rest)
    | some (_, st1, some base, rest) =>
      if rustContainsChar base '.' then
        some (finishSave
          { st1 with document := { st1.document with file_name := some base } } writeOk, rest)
      else
        match editorPrompt trivialCb "(txt/docx/odt): " () st1 rest with
        | none => none
        | some (_, st2, extAns, rest2) =>
          let name := base ++ "." ++ chosenExt extAns
          some (finishSave
            { st2 with document := { st2.document with file_name := some name } } writeOk, rest2)

/-- The search prompt callback (src/editor.rs lines 185-207); the captured
mutable direction variable is the explicit callback state. -/
def searchCb (_dir : SearchDirection) (ed : Editor) (key : Key) (_m : KeyMods)
    (query : String) : SearchDirection × Editor :=
  let t : SearchDirection × Editor × Bool :=
    match key with
    | Key.right | Key.down => (SearchDirection.forward, ed.move_cursor Key.right, true)
    | Key.left | Key.up => (SearchDirection.backward, ed, false)
    | _ => (SearchDirection.forward, ed, false)
  let dir2 := t.1
  let ed2 := t.2.1
  let moved := t.2.2
  let ed3 :=
    match ed2.document.find query ed2.cursor_position dir2 with
    | some pos => ({ ed2 with cursor_position := pos }).scroll
    | none => if moved then ed2.move_cursor Key.left else ed2
  (dir2, { ed3 with highlighted_word := some query })

/-- Editor::search (src/editor.rs lines 179-216). -/
def Editor.search (st : Editor) (keys : List Input) : Option (Editor × List Input) :=
  let old_position := st.cursor_position
  match editorPrompt searchCb "Search (ESC to cancel, Arrows to navigate): "
      SearchDirection.forward st keys with
  | none => none
  | some (_, st1, query, rest) =>
    let st2 :=
      match query with
      | none => ({ st1 with cursor_position := old_position }).scroll
      | some _ => st1
    some ({ st2 with highlighted_word := none }, rest)

/-- Editor::execute_command (src/editor.rs lines 217-249). -/
def Editor.execute_command (st : Editor) (keys : List Input) (writeOk : Bool)
    (command : String) : Option (Editor × List Input) :=
  match rustTrim command with
  | "help" | "h" | "?" =>
    some ({ st with status_message := "HELP: Ctrl-F=find | Ctrl-S=save | Enter=newline | ESC=cancel | :w=write | :q=quit | :q!=force quit | :wq=write+quit | :help=show help | Save-as will ask for .txt/.docx/.odt" }, keys)
  | "q" =>
    if st.quit_times > 0 && st.document.is_dirty then
      some ({ st with
        status_message := "WARNING! File has unsaved changes. Use :q! to force quit or save first."
        quit_times := st.quit_times - 1 }, keys)
    else
      some ({ st with should_quit := true }, keys)
  | "q!" => some ({ st with should_quit := true }, keys)
  | "w" => st.save keys writeOk
  | "wq" =>
    (st.save keys writeOk).map (fun r => ({ r.1 with should_quit := true }, r.2))
  | _ => some ({ st with status_message := "Unknown command: " ++ command }, keys)

/-- Editor::process_keypress (src/editor.rs lines 250-307): consume one key
event, dispatch it, then scroll and reset the quit counter. -/
def Editor.process_keypress (st : Editor) (keys : List Input) (writeOk : Bool) :
    Option (Editor × List Input) :=
  match keys with
  | [] => none
  | (key, mods) :: rest =>
    let step : Option (Editor × List Input) :=
      match key with
      | Key.char c =>
        if c = 's' ∧ mods.ctrl = true then st.save rest writeOk
        else if c = 'f' ∧ mods.ctrl = true ∧ st.command_buffer.isNone then st.search rest
        else if c = ':' ∧ st.command_buffer.isNone then
          some ({ st with command_buffer := some "" }, rest)
        else
          match st.command_buffer with
          | some b => some ({ st with command_buffer := some (b.push c) }, rest)
          | none =>
            some (({ st with document := st.document.insert st.cursor_position c
              }).move_cursor Key.right, rest)
      | Key.enter =>
        match st.command_buffer with
        | some b => ({ st with command_buffer := none }).execute_command rest writeOk b
        | none =>
          some ({ st with
            document := st.document.insert st.cursor_position '\n'
            cursor_position := Position.mk 0 (usatAdd st.cursor_position.y 1) }, rest)
      | Key.esc => some ({ st with command_buffer := none }, rest)
      | Key.delete =>
        some ({ st with document := st.document.delete st.cursor_position }, rest)
      | Key.backspace =>
        match st.command_buffer with
        | some b => some ({ st with command_buffer := some (b.dropRight 1) }, rest)
        | none =>
          if st.cursor_position.x > 0 ∨ st.cursor_position.y > 0 then
            let st1 := st.move_cursor Key.left
            some ({ st1 with document := st1.document.delete st1.cursor_position }, rest)
          else some (st, rest)
      | Key.up | Key.down | Key.left | Key.right
      | Key.pageUp | Key.pageDown | Key.home | Key.endKey =>
        some (st.move_cursor key, rest)
      | Key.otherKey => some (st, rest)
    step.map (fun r =>
      let st2 := r.1.scroll
      let st3 :=
        if st2.quit_times < QUIT_TIMES then
          { st2 with quit_times := QUIT_TIMES, status_message := "" }
        else st2
      (st3, r.2))

/-- Highlighting feature profile (src/filetype.rs, struct HighlightingOptions). -/
structure HighlightingOptions where
  numbers : Bool
  strings : Bool
  characters : Bool
  comments : Bool
  multiline_comments : Bool
  primary_keywords : List String
  secondary_keywords : List String
deriving DecidableEq

/-- Default for HighlightingOptions (derived Default in the source): every
category disabled, empty keyword lists. -/
def HighlightingOptions.default : HighlightingOptions :=
  HighlightingOptions.mk false false false false false [] []

/-- Filetype profile (src/filetype.rs, struct FileType). -/
structure FileType where
  name : String
  hl_opts : HighlightingOptions
deriving DecidableEq

/-- Default for FileType (src/filetype.rs lines 26-34). -/
def FileType.default : FileType :=
  FileType.mk "No filetype" HighlightingOptions.default

/-- The Rust highlighting profile built in FileType::from for the rs
extension (src/filetype.rs lines 311-396). -/
def rustHlOpts : HighlightingOptions :=
  HighlightingOptions.mk true true true true true
    ["as", "break", "const", "continue", "crate", "else", "enum", "extern",
     "false", "fn", "for", "if", "impl", "in", "let", "loop", "match", "mod",
     "move", "mut", "pub", "ref", "return", "self", "Self", "static",
     "struct", "super", "trait", "true", "type", "unsafe", "use", "where",
     "while", "dyn", "abstract", "become", "box", "do", "final", "macro",
     "override", "priv", "typeof", "unsized", "virtual", "yield", "async",
     "await", "try"]
    ["bool", "char", "i8", "i16", "i32", "i64", "isize", "u8", "u16", "u32",
     "u64", "usize", "f32", "f64"]

/-- Rust Path::file_name on a unix path string: the last component, unless
the path ends in a separator or a relative-dot component. -/
def rustFileName (s : String) : Option String :=
  match (rustSplitOn s "/").reverse with
  | [] => none
  | last :: _ =>
    if last.isEmpty ∨ last = "." ∨ last = ".." then none else some last

/-- Rust Path::extension on a unix path string: the part of the file name
after its last dot, provided a dot occurs after the first character. -/
def rustPathExt (s : String) : Option String :=
  (rustFileName s).bind (fun f =>
    match rustSplitOn f "." with
    | [] => none
    | [_] => none
    | first :: restParts =>
      if first.isEmpty ∧ restParts.length = 1 then none
      else some (restParts.getLastD "")
  )

/-- Rust str::split_once: split at the first occurrence of the separator. -/
def splitOnce (sep s : String) : Option (String × String) :=
  match rustSplitOn s sep with
  | [] => none
  | [_] => none
  | first :: restParts => some (first, String.intercalate sep restParts)

/-- Rust str::trim_matches with the quote-character pattern used in
FileType::from: strip every leading and trailing single or double quote. -/
def trimQuotes (s : String) : String :=
  String.mk (((s.data.dropWhile (fun c => c = '"' ∨ c = '\'')).reverse.dropWhile
    (fun c => c = '"' ∨ c = '\'')).reverse)

/-- Trailing phase of the glob matcher in FileType::from (src/filetype.rs
lines 100-104): the remaining pattern must be all stars. -/
def globDrain : List Char → Bool
  | [] => true
  | '*' :: rest => globDrain rest
  | _ => false

/-- Main loop of the glob matcher in FileType::from (src/filetype.rs lines
70-108), with its four indices explicit and a fuel bound on the iteration
count (each step advances ti, advances pi, or advances the backtrack point,
so the generous fuel below never runs out on the loop the source executes). -/
def globLoop (p t : List Char) : Nat → Nat → Nat → Option Nat → Nat → Bool
  | 0, _, _, _, _ => false
  | fuel + 1, pi, ti, star, mt =>
    if ti < t.length then
      let pc := p[pi]?
      if pc = some '?' ∨ (pc.isSome ∧ pc = t[ti]?) then
        globLoop p t fuel (pi + 1) (ti + 1) star mt
      else if pc = some '*' then
        globLoop p t fuel (pi + 1) ti (some pi) ti
      else
        match star with
        | some si => globLoop p t fuel (si + 1) (mt + 1) (some si) (mt + 1)
        | none => false
    else globDrain (p.drop pi)

/-- The matches_glob closure of FileType::from. -/
def matchesGlob (pattern text : String) : Bool :=
  let p := pattern.data
  let t := text.data
  globLoop p t ((t.length + 2) * (p.length + 2)) 0 0 none 0

/-- One pattern token of a mapping line against the file being resolved
(src/filetype.rs lines 171-208): quotes and one leading dot stripped, then
matched as a glob, an exact basename, or an exact extension. -/
def patMatches (filePathLower basenameLower : String) (ext : Option String)
    (part : String) : Bool :=
  let pat0 := asciiLower (trimQuotes (rustTrim part))
  if pat0.isEmpty then false
  else
    let pat := if rustStartsWith pat0 "." then pat0.drop 1 else pat0
    if rustContainsChar pat '*' || rustContainsChar pat '?' || rustContainsChar pat '/' || rustContainsChar pat '\\' then
      matchesGlob pat filePathLower || matchesGlob pat basenameLower
    else if rustContainsChar pat '.' then basenameLower == pat
    else
      match ext with
      | some e => e == pat
      | none => false

/-- One line of the external mapping file (src/filetype.rs lines 128-308):
returns the display name when some pattern token of the line matches. -/
def mappingLine (filePathLower basenameLower : String) (ext : Option String)
    (rawLine : String) : Option String :=
  let l0 := rustTrim rawLine
  if l0.isEmpty then none
  else
    let l1 :=
      match splitOnce "#" l0 with
      | some pr => rustTrim pr.1
      | none => l0
    if l1.isEmpty then none
    else
      let lr : Option (String × String) :=
        match splitOnce "=>" l1 with
        | some pr => some (rustTrim pr.1, rustTrim pr.2)
        | none =>
          match splitOnce "->" l1 with
          | some pr => some (rustTrim pr.1, rustTrim pr.2)
          | none =>
            match splitOnce ":" l1 with
            | some pr => some (rustTrim pr.1, rustTrim pr.2)
            | none =>
              match splitOnce "=" l1 with
              | some pr => some (rustTrim pr.1, rustTrim pr.2)
              | none => none
      match lr with
      | none => none
      | some (lhs, rhs) =>
        if lhs.isEmpty ∨ rhs.isEmpty then none
        else
          let displayName := trimQuotes (rustTrim rhs)
          let tokens := rustSplitBy (fun c => c == ',' || c == ';') lhs
          let hit := tokens.any (fun token =>
            let tok := rustTrim token
            if tok.isEmpty then false
            else
              ((rustSplitBy Char.isWhitespace tok).filter
                (fun w => !w.isEmpty)).any
                (patMatches filePathLower basenameLower ext))
          if hit then some displayName else none

/-- The external-mapping lookup of FileType::from: the display name of the
first mapping line some token of which matches, if any.  The mapping file
contents are an input (the source reads the first existing candidate file;
none models no candidate being readable). -/
def mappingResult (mapping : Option String) (file_name : String) : Option String :=
  match mapping with
  | none => none
  | some contents =>
    let filePathLower := asciiLower file_name
    let basenameLower := ((rustFileName file_name).map asciiLower).getD ""
    let ext := (rustPathExt file_name).map asciiLower
    (rustLines contents).findSome?
      (mappingLine filePathLower basenameLower ext)

/-- The named rows of the built-in extension table of FileType::from
(src/filetype.rs lines 311-446). -/
def builtinForExt (e : String) : FileType :=
  match e with
  | "rs" => FileType.mk "Rust" rustHlOpts
  | "doc" => FileType.mk "MS Word 95-97" HighlightingOptions.default
  | "docx" => FileType.mk "MS Word" HighlightingOptions.default
  | "txt" => FileType.mk "Plain Text" HighlightingOptions.default
  | "odt" => FileType.mk "OpenDocument Text" HighlightingOptions.default
  | "gd" => FileType.mk "GDScript" HighlightingOptions.default
  | "tscn" => FileType.mk "Godot Scene" HighlightingOptions.default
  | "scn" => FileType.mk "Godot Scene (binary)" HighlightingOptions.default
  | "tres" => FileType.mk "Godot Resource" HighlightingOptions.default
  | "res" => FileType.mk "Godot Resource (binary)" HighlightingOptions.default
  | "gdshader" => FileType.mk "Godot Shader" HighlightingOptions.default
  | "shader" => FileType.mk "Shader" HighlightingOptions.default
  | "godot" => FileType.mk "Godot Project" HighlightingOptions.default
  | _ => FileType.default

/-- The built-in extension table of FileType::from (src/filetype.rs lines
311-446), reached when the external mapping matches nothing: the wildcard of
the source match also covers the None extension. -/
def builtinFor (ext : Option String) : FileType :=
  match ext with
  | some e => builtinForExt e
  | none => FileType.default

/-- The extensions named by the built-in table of FileType::from, listed for
stating when the table falls through to its wildcard arm. -/
def builtinExts : List String :=
  ["rs", "doc", "docx", "txt", "odt", "gd", "tscn", "scn", "tres", "res",
   "gdshader", "shader", "godot"]

/-- FileType::from (src/filetype.rs lines 51-447), with the mapping-file
contents passed in place of the filesystem read. -/
def FileType.fromName (mapping : Option String) (file_name : String) : FileType :=
  let ext := (rustPathExt file_name).map asciiLower
  match mappingResult mapping file_name with
  | some nm =>
    if ext = some "rs" then FileType.mk nm rustHlOpts
    else FileType.mk nm HighlightingOptions.default
  | none => builtinFor ext

/-! Helper lemmas. -/

lemma scroll_cursor (st : Editor) :
    (Editor.scroll st).cursor_position = st.cursor_position := rfl

lemma scroll_document (st : Editor) :
    (Editor.scroll st).document = st.document := rfl

lemma scroll_quit_times (st : Editor) :
    (Editor.scroll st).quit_times = st.quit_times := rfl

lemma scroll_set_command_buffer (st : Editor) (v : Option String) :
    Editor.scroll { st with command_buffer := v }
      = { Editor.scroll st with command_buffer := v } := rfl

/-- The prompt loop with the do-nothing callback changes nothing in the
editor except the status message. -/
lemma promptGo_trivialCb_state (ptext : String) :
    ∀ (keys : List Input) (st : Editor) (acc : String) (cs : Unit) r,
      promptGo trivialCb ptext cs st acc keys = some r →
      r.2.1 = { st with status_message := r.2.1.status_message } := by
  intro keys
  induction keys with
  | nil => intro st acc cs r h; simp [promptGo] at h
  | cons kv rest ih =>
    intro st acc cs r h
    obtain ⟨k, m⟩ := kv
    cases k <;> simp only [promptGo, trivialCb] at h
    case char c =>
      exact ih { st with status_message := ptext ++ acc } (acc.push c) cs r h
    case enter => cases h; rfl
    case esc => cases h; rfl
    case backspace =>
      exact ih { st with status_message := ptext ++ acc } (acc.dropRight 1) cs r h
    all_goals exact ih { st with status_message := ptext ++ acc } acc cs r h

/-- Editor::prompt with the do-nothing callback returns the input editor with
an emptied status message. -/
lemma editorPrompt_trivialCb_state (ptext : String) (st : Editor) (keys : List Input)
    (cs2 : Unit) (st1 : Editor) (q : Option String) (rest : List Input)
    (h : editorPrompt trivialCb ptext () st keys = some (cs2, st1, q, rest)) :
    st1 = { st with status_message := "" } := by
  unfold editorPrompt at h
  cases hgo : promptGo trivialCb ptext () st "" keys with
  | none => rw [hgo] at h; simp at h
  | some r =>
    rw [hgo] at h
    simp only [Option.map_some] at h
    have hst := promptGo_trivialCb_state ptext keys st "" () r hgo
    have h2 := Option.some.inj h
    have h3 : st1 = { r.2.1 with status_message := "" } := by
      have h4 := congrArg
        (fun p : Unit × Editor × Option String × List Input => p.2.1) h2
      exact h4.symm
    rw [h3, hst]

/-- A cancelled name prompt makes Editor::save abort with an "aborted"
status and an otherwise untouched editor. -/
lemma save_abort_general (st : Editor) (keys : List Input) (ok : Bool)
    (st1 : Editor) (rest : List Input)
    (hname : st.document.file_name = none)
    (hp : editorPrompt trivialCb "name: " () st keys = some ((), st1, none, rest)) :
    Editor.save st keys ok = some ({ st with status_message := "aborted" }, rest) := by
  have h1 := editorPrompt_trivialCb_state _ _ _ _ _ _ _ hp
  unfold Editor.save
  rw [hname, hp, h1]

/-- Editor::move_cursor keeps the row index at most the row count and clamps
the column to the length of the destination row. -/
lemma move_cursor_bounds (st : Editor) (key : Key)
    (hy : st.cursor_position.y ≤ st.document.len) :
    (st.move_cursor key).cursor_position.y ≤ st.document.len ∧
    (st.move_cursor key).cursor_position.x ≤
      widthAt st.document (st.move_cursor key).cursor_position.y := by
  unfold Editor.move_cursor
  cases key <;>
    simp only [usatAdd, USIZE_MAX] <;>
    split_ifs <;>
    simp_all <;>
    omega

/-- Document::delete preserves the cursor invariant: a position with row
index at most the row count and column at most the row length still
satisfies both bounds against the buffer after the deletion (a merge grows
the row and drops the next one; a character removal shortens the row by one
but only fires strictly left of the end; the remaining cases change
nothing). -/
lemma delete_preserves_bounds (d : Document) (pos : Position)
    (hy : pos.y ≤ d.len) (hx : pos.x ≤ widthAt d pos.y) :
    pos.y ≤ (d.delete pos).len ∧ pos.x ≤ widthAt (d.delete pos) pos.y := by
  unfold Document.delete
  cases hrow : d.rows[pos.y]? with
  | none => exact ⟨hy, hx⟩
  | some r =>
    dsimp only
    have hlt : pos.y < d.rows.length := by
      by_contra hn
      push_neg at hn
      rw [List.getElem?_eq_none hn] at hrow
      simp at hrow
    have hwr : widthAt d pos.y = r.length := by
      unfold widthAt Document.row
      rw [hrow]
    split_ifs with h1 h2
    · constructor
      · simp only [Document.len]
        rw [List.length_eraseIdx_of_lt (by rw [List.length_set]; exact h1.2)]
        rw [List.length_set]
        omega
      · unfold widthAt Document.row
        rw [List.getElem?_eraseIdx_of_lt _ _ _ (by omega),
          List.getElem?_set_self hlt]
        simp only [String.length_append]
        omega
    · constructor
      · simp only [Document.len, List.length_set]
        exact hy
      · unfold widthAt Document.row
        rw [List.getElem?_set_self hlt]
        show pos.x ≤ (String.mk (r.data.take pos.x ++ r.data.drop (pos.x + 1))).length
        have hl : (String.mk (r.data.take pos.x ++ r.data.drop (pos.x + 1))).length
            = (r.data.take pos.x ++ r.data.drop (pos.x + 1)).length := rfl
        rw [hl, List.length_append, List.length_take, List.length_drop]
        have hrl : r.length = r.data.length := rfl
        omega
    · exact ⟨hy, hx⟩

/-- Document::insert never shrinks the buffer. -/
lemma insert_len_ge (d : Document) (pos : Position) (c : Char) :
    d.len ≤ (d.insert pos c).len := by
  unfold Document.insert Document.len
  split_ifs with h1 h2 h3
  · simp only [List.length_append, List.length_take, List.length_drop,
      List.length_cons, List.length_nil]
    omega
  · simp
  · rw [List.length_set]
  · simp

/-- Inserting a line break grows the buffer by exactly one row (a split in
range replaces one row by two; past the end a fresh row is appended). -/
lemma insert_newline_len (d : Document) (pos : Position) :
    (d.insert pos '\n').len = d.len + 1 := by
  unfold Document.insert Document.len
  rw [if_pos rfl]
  split_ifs with h
  · simp only [List.length_append, List.length_take, List.length_drop,
      List.length_cons, List.length_nil]
    omega
  · simp

/-- Rows of the built-in table other than the listed extensions give the
default profile. -/
lemma builtinForExt_not_mem (e : String) (he : e ∉ builtinExts) :
    builtinForExt e = FileType.default := by
  unfold builtinForExt
  split
  all_goals first | rfl | simp_all [builtinExts]

/-- The format-prompt match always lands on one of the three formats. -/
lemma normalizeExtChoice_cases (e2 : String) :
    normalizeExtChoice e2 = "txt" ∨ normalizeExtChoice e2 = "docx" ∨
    normalizeExtChoice e2 = "odt" := by
  unfold normalizeExtChoice
  split
  all_goals simp_all

/-- Anything but the three formats is replaced by txt. -/
lemma normalizeExtChoice_other (e2 : String)
    (h1 : e2 ≠ "txt") (h2 : e2 ≠ "docx") (h3 : e2 ≠ "odt") :
    normalizeExtChoice e2 = "txt" := by
  unfold normalizeExtChoice
  split
  all_goals simp_all

/-! Claim theorems. -/

/-- Claim C1 (code bug, evaluation at the failing input): on a dirty
document, dispatching the plain quit command through a keypress leaves the
quit flag unset — but the warning status message is NOT visible once the
keypress is fully processed: execute_command stores the warning and
decrements quit_times, and the tail of process_keypress then sees
quit_times below QUIT_TIMES, restores it and overwrites the status with the
empty message, all within the same keypress.  Dispatching the force-quit
command sets the quit flag on the same dirty state. -/
theorem c1_plain_quit_warning_erased :
    (Editor.process_keypress
      (Editor.mk false (Position.mk 0 0) (Position.mk 0 0)
        (Document.mk ["a"] true (some "a.txt")) "" 3 none (some "q") 80 24)
      [(Key.enter, KeyMods.mk false)] true).map
      (fun p => (p.1.should_quit, p.1.status_message, p.1.quit_times))
      = some (false, "", 3) ∧
    (Editor.process_keypress
      (Editor.mk false (Position.mk 0 0) (Position.mk 0 0)
        (Document.mk ["a"] true (some "a.txt")) "" 3 none (some "q!") 80 24)
      [(Key.enter, KeyMods.mk false)] true).map
      (fun p => p.1.should_quit) = some true := by
  decide

/-- Claim C2 counterexample: on a nameless dirty document, dispatching the
wq command with the name prompt cancelled (so the save is aborted with an
"aborted" status and no file identity) still sets the quit flag, refuting
the claim that wq quits only on save success. -/
theorem c2_wq_quits_despite_aborted_save :
    (Editor.execute_command
      (Editor.mk false (Position.mk 0 0) (Position.mk 0 0)
        (Document.mk ["a"] true none) "" 3 none none 80 24)
      [(Key.esc, KeyMods.mk false)] true "wq").map
      (fun p => (p.1.should_quit, p.1.status_message, p.1.document.file_name))
      = some (true, "aborted", none) := by
  decide

/-- Claim C2 (amended): dispatching the wq command sets the quit flag
unconditionally whenever the command completes — also when the save failed
with an I/O error or was aborted at the filename prompt. -/
theorem c2_wq_always_quits : ∀ (st : Editor) (keys : List Input) (ok : Bool)
    (st2 : Editor) (rest : List Input),
    Editor.execute_command st keys ok "wq" = some (st2, rest) →
    st2.should_quit = true := by
  intro st keys ok st2 rest h
  have hdef : Editor.execute_command st keys ok "wq"
      = (Editor.save st keys ok).map
          (fun r => ({ r.1 with should_quit := true }, r.2)) := rfl
  rw [hdef] at h
  cases hs : Editor.save st keys ok with
  | none => rw [hs] at h; simp at h
  | some r =>
    rw [hs] at h
    simp only [Option.map_some] at h
    have h2 := Option.some.inj h
    have h3 := congrArg (fun p : Editor × List Input => p.1) h2
    dsimp only at h3
    rw [← h3]

/-- Witness for claim C2: the amended theorem applied to a nameless dirty
document whose name prompt is cancelled. -/
theorem c2_wq_always_quits_witness :
    (Editor.mk true (Position.mk 0 0) (Position.mk 0 0)
      (Document.mk ["a"] true none) "aborted" 3 none none 80 24).should_quit
      = true :=
  c2_wq_always_quits
    (Editor.mk false (Position.mk 0 0) (Position.mk 0 0)
      (Document.mk ["a"] true none) "" 3 none none 80 24)
    [(Key.esc, KeyMods.mk false)] true
    (Editor.mk true (Position.mk 0 0) (Position.mk 0 0)
      (Document.mk ["a"] true none) "aborted" 3 none none 80 24)
    [] (by decide)

/-- Claim C3 counterexample: saving a nameless document, entering the base
name and then cancelling the format prompt does NOT abort: the save
proceeds, the file identity becomes the base name with a txt extension and
the status reports a successful save, refuting the claim that cancelling
either prompt aborts with an "aborted" status and no file identity. -/
theorem c3_format_cancel_still_saves :
    (Editor.save
      (Editor.mk false (Position.mk 0 0) (Position.mk 0 0)
        (Document.mk ["a"] true none) "" 3 none none 80 24)
      [(Key.char 'f', KeyMods.mk false), (Key.char 'o', KeyMods.mk false),
       (Key.char 'o', KeyMods.mk false), (Key.enter, KeyMods.mk false),
       (Key.esc, KeyMods.mk false)] true).map
      (fun p => (p.1.document.file_name, p.1.status_message))
      = some (some "foo.txt", "File saved successfully.") := by
  decide

/-- Claim C3 (amended): when saving a nameless document, cancelling the
base-name prompt aborts the save — the status becomes "aborted", the
document keeps no file identity and its content and dirty flag are
untouched; cancelling the later format prompt does NOT abort: the extension
defaults to txt and the save proceeds on the base name with that
extension. -/
theorem c3_base_cancel_aborts_format_cancel_defaults :
    (∀ (st : Editor) (keys : List Input) (ok : Bool) (st1 : Editor)
      (rest : List Input),
      st.document.file_name = none →
      editorPrompt trivialCb "name: " () st keys = some ((), st1, none, rest) →
      Editor.save st keys ok = some ({ st with status_message := "aborted" }, rest)) ∧
    (∀ (st : Editor) (keys : List Input) (ok : Bool) (st1 : Editor)
      (base : String) (rest1 : List Input) (st2 : Editor) (rest2 : List Input),
      st.document.file_name = none →
      editorPrompt trivialCb "name: " () st keys = some ((), st1, some base, rest1) →
      rustContainsChar base '.' = false →
      editorPrompt trivialCb "(txt/docx/odt): " () st1 rest1
        = some ((), st2, none, rest2) →
      ∃ st3, Editor.save st keys ok = some (st3, rest2) ∧
        st3.document.file_name = some (base ++ "." ++ chosenExt none) ∧
        (st3.status_message = "File saved successfully." ∨
         st3.status_message = "Error writing file!")) := by
  constructor
  · intro st keys ok st1 rest hname hp
    exact save_abort_general st keys ok st1 rest hname hp
  · intro st keys ok st1 base rest1 st2 rest2 hname hp1 hbase hp2
    have hsave : Editor.save st keys ok
        = some (finishSave { st2 with document :=
            { st2.document with file_name := some (base ++ "." ++ chosenExt none) } } ok,
          rest2) := by
      unfold Editor.save
      rw [hname, hp1]
      simp only [hbase, Bool.false_eq_true, if_false, hp2]
    refine ⟨_, hsave, ?_, ?_⟩
    · cases ok <;> simp [finishSave, Document.save]
    · cases ok <;> simp [finishSave, Document.save]

/-- Witness for claim C3: both parts of the amended theorem on a concrete
nameless dirty document — a cancelled name prompt, and a name foo followed
by a cancelled format prompt. -/
theorem c3_amended_witness :
    Editor.save
      (Editor.mk false (Position.mk 0 0) (Position.mk 0 0)
        (Document.mk ["a"] true none) "" 3 none none 80 24)
      [(Key.esc, KeyMods.mk false)] true
      = some ({ Editor.mk false (Position.mk 0 0) (Position.mk 0 0)
          (Document.mk ["a"] true none) "" 3 none none 80 24 with
          status_message := "aborted" }, []) ∧
    (∃ st3, Editor.save
      (Editor.mk false (Position.mk 0 0) (Position.mk 0 0)
        (Document.mk ["a"] true none) "" 3 none none 80 24)
      [(Key.char 'f', KeyMods.mk false), (Key.char 'o', KeyMods.mk false),
       (Key.char 'o', KeyMods.mk false), (Key.enter, KeyMods.mk false),
       (Key.esc, KeyMods.mk false)] true = some (st3, []) ∧
      st3.document.file_name = some ("foo" ++ "." ++ chosenExt none) ∧
      (st3.status_message = "File saved successfully." ∨
       st3.status_message = "Error writing file!")) :=
  ⟨c3_base_cancel_aborts_format_cancel_defaults.1
      (Editor.mk false (Position.mk 0 0) (Position.mk 0 0)
        (Document.mk ["a"] true none) "" 3 none none 80 24)
      [(Key.esc, KeyMods.mk false)] true
      (Editor.mk false (Position.mk 0 0) (Position.mk 0 0)
        (Document.mk ["a"] true none) "" 3 none none 80 24)
      [] (by decide) (by decide),
   c3_base_cancel_aborts_format_cancel_defaults.2
      (Editor.mk false (Position.mk 0 0) (Position.mk 0 0)
        (Document.mk ["a"] true none) "" 3 none none 80 24)
      [(Key.char 'f', KeyMods.mk false), (Key.char 'o', KeyMods.mk false),
       (Key.char 'o', KeyMods.mk false), (Key.enter, KeyMods.mk false),
       (Key.esc, KeyMods.mk false)] true
      (Editor.mk false (Position.mk 0 0) (Position.mk 0 0)
        (Document.mk ["a"] true none) "" 3 none none 80 24)
      "foo" [(Key.esc, KeyMods.mk false)]
      (Editor.mk false (Position.mk 0 0) (Position.mk 0 0)
        (Document.mk ["a"] true none) "" 3 none none 80 24)
      [] (by decide) (by decide) (by decide) (by decide)⟩

/-- Claim C4 counterexample: pressing Down on the last row of a one-row
document leaves the cursor row index EQUAL to the row count after the
keypress is fully handled — the claimed strict bound y < row_count does not
hold, and y = row_count persists rather than being transient. -/
theorem c4_down_leaves_row_at_row_count :
    (Editor.process_keypress
      (Editor.mk false (Position.mk 0 0) (Position.mk 0 0)
        (Document.mk ["a"] false none) "" 3 none none 80 24)
      [(Key.down, KeyMods.mk false)] true).map
      (fun p => (p.1.cursor_position.x, p.1.cursor_position.y, p.1.document.len))
      = some (0, 1, 1) := by
  decide

/-- Claim C4 (amended): after any cursor-motion keypress (arrow, page, home
or end key) and after every buffer-mutating keypress in edit mode (Enter,
a plain character insert, Delete, Backspace) from a state satisfying the
cursor invariant — y at most the row count, and for the deleting keys x at
most the length of the row at y — the cursor still satisfies x at most the
length of the row at y (0 when y is past the last row) and y at most the
row count; the bound on y is non-strict: y may equal row_count, the
persistent past-the-last-row position. -/
theorem c4_keypress_keeps_cursor_bounded :
    (∀ (st : Editor) (key : Key) (m : KeyMods) (ok : Bool) (st2 : Editor)
      (rest : List Input),
      (key = Key.up ∨ key = Key.down ∨ key = Key.left ∨ key = Key.right ∨
       key = Key.pageUp ∨ key = Key.pageDown ∨ key = Key.home ∨ key = Key.endKey) →
      st.cursor_position.y ≤ st.document.len →
      Editor.process_keypress st [(key, m)] ok = some (st2, rest) →
      st2.cursor_position.y ≤ st2.document.len ∧
      st2.cursor_position.x ≤ widthAt st2.document st2.cursor_position.y) ∧
    (∀ (st : Editor) (m : KeyMods) (ok : Bool) (st2 : Editor) (rest : List Input),
      st.command_buffer = none →
      st.cursor_position.y ≤ st.document.len →
      Editor.process_keypress st [(Key.enter, m)] ok = some (st2, rest) →
      st2.cursor_position.y ≤ st2.document.len ∧
      st2.cursor_position.x ≤ widthAt st2.document st2.cursor_position.y) ∧
    (∀ (st : Editor) (c : Char) (m : KeyMods) (ok : Bool) (st2 : Editor)
      (rest : List Input),
      st.command_buffer = none →
      ¬ (c = 's' ∧ m.ctrl = true) → ¬ (c = 'f' ∧ m.ctrl = true) → c ≠ ':' →
      st.cursor_position.y ≤ st.document.len →
      Editor.process_keypress st [(Key.char c, m)] ok = some (st2, rest) →
      st2.cursor_position.y ≤ st2.document.len ∧
      st2.cursor_position.x ≤ widthAt st2.document st2.cursor_position.y) ∧
    (∀ (st : Editor) (m : KeyMods) (ok : Bool) (st2 : Editor) (rest : List Input),
      st.cursor_position.y ≤ st.document.len →
      st.cursor_position.x ≤ widthAt st.document st.cursor_position.y →
      Editor.process_keypress st [(Key.delete, m)] ok = some (st2, rest) →
      st2.cursor_position.y ≤ st2.document.len ∧
      st2.cursor_position.x ≤ widthAt st2.document st2.cursor_position.y) ∧
    (∀ (st : Editor) (m : KeyMods) (ok : Bool) (st2 : Editor) (rest : List Input),
      st.command_buffer = none →
      st.cursor_position.y ≤ st.document.len →
      Editor.process_keypress st [(Key.backspace, m)] ok = some (st2, rest) →
      st2.cursor_position.y ≤ st2.document.len ∧
      st2.cursor_position.x ≤ widthAt st2.document st2.cursor_position.y) := by
  refine ⟨?_, ?_, ?_, ?_, ?_⟩
  · intro st key m ok st2 rest hk hy h
    have hmc := move_cursor_bounds st key hy
    rcases hk with hk | hk | hk | hk | hk | hk | hk | hk <;> subst hk <;>
      simp only [Editor.process_keypress, Option.map_some] at h <;>
      have h2 := (Option.some.inj h) <;>
      have h3 := congrArg (fun p : Editor × List Input => p.1) h2 <;>
      dsimp only at h3 <;>
      rw [← h3] <;>
      split <;>
      exact hmc
  · intro st m ok st2 rest hcb hy h
    simp only [Editor.process_keypress, hcb] at h
    have h2 := Option.some.inj h
    have h3 := congrArg (fun p : Editor × List Input => p.1) h2
    dsimp only at h3
    rw [← h3]
    have hinv : usatAdd st.cursor_position.y 1
        ≤ (st.document.insert st.cursor_position '\n').len ∧
        (0 : Nat) ≤ widthAt (st.document.insert st.cursor_position '\n')
          (usatAdd st.cursor_position.y 1) := by
      constructor
      · rw [insert_newline_len]
        unfold usatAdd
        omega
      · exact Nat.zero_le _
    split <;> exact hinv
  · intro st c m ok st2 rest hcb hcs hcf hcol hy h
    simp only [Editor.process_keypress] at h
    rw [if_neg hcs, if_neg (fun hq => hcf ⟨hq.1, hq.2.1⟩),
      if_neg (fun hq => hcol hq.1)] at h
    rw [hcb] at h
    have h2 := Option.some.inj h
    have h3 := congrArg (fun p : Editor × List Input => p.1) h2
    dsimp only at h3
    rw [← h3]
    have hmc := move_cursor_bounds
      { st with document := st.document.insert st.cursor_position c } Key.right
      (le_trans hy (insert_len_ge st.document st.cursor_position c))
    split <;> exact hmc
  · intro st m ok st2 rest hy hx h
    simp only [Editor.process_keypress, Option.map_some] at h
    have h2 := Option.some.inj h
    have h3 := congrArg (fun p : Editor × List Input => p.1) h2
    dsimp only at h3
    rw [← h3]
    have hd := delete_preserves_bounds st.document st.cursor_position hy hx
    split <;> exact hd
  · intro st m ok st2 rest hcb hy h
    simp only [Editor.process_keypress, hcb] at h
    by_cases hg : st.cursor_position.x > 0 ∨ st.cursor_position.y > 0
    · rw [if_pos hg] at h
      have h2 := Option.some.inj h
      have h3 := congrArg (fun p : Editor × List Input => p.1) h2
      dsimp only at h3
      rw [← h3]
      have hm := move_cursor_bounds st Key.left hy
      have hd := delete_preserves_bounds st.document
        (st.move_cursor Key.left).cursor_position hm.1 hm.2
      split <;> exact hd
    · rw [if_neg hg] at h
      have h2 := Option.some.inj h
      have h3 := congrArg (fun p : Editor × List Input => p.1) h2
      dsimp only at h3
      rw [← h3]
      push_neg at hg
      have hx0 : st.cursor_position.x = 0 := by omega
      have hinv2 : st.cursor_position.y ≤ st.document.len ∧
          st.cursor_position.x ≤ widthAt st.document st.cursor_position.y :=
        ⟨hy, by rw [hx0]; exact Nat.zero_le _⟩
      split <;> exact hinv2

/-- Witness for claim C4: the amended bounds exercised for each keypress
kind on a concrete two-character one-row document — Down, Enter (line
split), the character z (insert), Delete (character removal) and Backspace
(move left then delete). -/
theorem c4_keypress_keeps_cursor_bounded_witness :
    ((Editor.mk false (Position.mk 0 1) (Position.mk 0 0)
      (Document.mk ["ab"] false none) "" 3 none none 80 24).cursor_position.y
      ≤ (Editor.mk false (Position.mk 0 1) (Position.mk 0 0)
        (Document.mk ["ab"] false none) "" 3 none none 80 24).document.len ∧
    (Editor.mk false (Position.mk 0 1) (Position.mk 0 0)
      (Document.mk ["ab"] false none) "" 3 none none 80 24).cursor_position.x
      ≤ widthAt (Editor.mk false (Position.mk 0 1) (Position.mk 0 0)
          (Document.mk ["ab"] false none) "" 3 none none 80 24).document
        (Editor.mk false (Position.mk 0 1) (Position.mk 0 0)
          (Document.mk ["ab"] false none) "" 3 none none 80 24).cursor_position.y) ∧
    ((Editor.mk false (Position.mk 0 1) (Position.mk 0 0)
      (Document.mk ["a", "b"] true none) "" 3 none none 80 24).cursor_position.y
      ≤ (Editor.mk false (Position.mk 0 1) (Position.mk 0 0)
        (Document.mk ["a", "b"] true none) "" 3 none none 80 24).document.len ∧
    (Editor.mk false (Position.mk 0 1) (Position.mk 0 0)
      (Document.mk ["a", "b"] true none) "" 3 none none 80 24).cursor_position.x
      ≤ widthAt (Editor.mk false (Position.mk 0 1) (Position.mk 0 0)
          (Document.mk ["a", "b"] true none) "" 3 none none 80 24).document
        (Editor.mk false (Position.mk 0 1) (Position.mk 0 0)
          (Document.mk ["a", "b"] true none) "" 3 none none 80 24).cursor_position.y) ∧
    ((Editor.mk false (Position.mk 2 0) (Position.mk 0 0)
      (Document.mk ["azb"] true none) "" 3 none none 80 24).cursor_position.y
      ≤ (Editor.mk false (Position.mk 2 0) (Position.mk 0 0)
        (Document.mk ["azb"] true none) "" 3 none none 80 24).document.len ∧
    (Editor.mk false (Position.mk 2 0) (Position.mk 0 0)
      (Document.mk ["azb"] true none) "" 3 none none 80 24).cursor_position.x
      ≤ widthAt (Editor.mk false (Position.mk 2 0) (Position.mk 0 0)
          (Document.mk ["azb"] true none) "" 3 none none 80 24).document
        (Editor.mk false (Position.mk 2 0) (Position.mk 0 0)
          (Document.mk ["azb"] true none) "" 3 none none 80 24).cursor_position.y) ∧
    ((Editor.mk false (Position.mk 1 0) (Position.mk 0 0)
      (Document.mk ["a"] true none) "" 3 none none 80 24).cursor_position.y
      ≤ (Editor.mk false (Position.mk 1 0) (Position.mk 0 0)
        (Document.mk ["a"] true none) "" 3 none none 80 24).document.len ∧
    (Editor.mk false (Position.mk 1 0) (Position.mk 0 0)
      (Document.mk ["a"] true none) "" 3 none none 80 24).cursor_position.x
      ≤ widthAt (Editor.mk false (Position.mk 1 0) (Position.mk 0 0)
          (Document.mk ["a"] true none) "" 3 none none 80 24).document
        (Editor.mk false (Position.mk 1 0) (Position.mk 0 0)
          (Document.mk ["a"] true none) "" 3 none none 80 24).cursor_position.y) ∧
    ((Editor.mk false (Position.mk 0 0) (Position.mk 0 0)
      (Document.mk ["b"] true none) "" 3 none none 80 24).cursor_position.y
      ≤ (Editor.mk false (Position.mk 0 0) (Position.mk 0 0)
        (Document.mk ["b"] true none) "" 3 none none 80 24).document.len ∧
    (Editor.mk false (Position.mk 0 0) (Position.mk 0 0)
      (Document.mk ["b"] true none) "" 3 none none 80 24).cursor_position.x
      ≤ widthAt (Editor.mk false (Position.mk 0 0) (Position.mk 0 0)
          (Document.mk ["b"] true none) "" 3 none none 80 24).document
        (Editor.mk false (Position.mk 0 0) (Position.mk 0 0)
          (Document.mk ["b"] true none) "" 3 none none 80 24).cursor_position.y) :=
  ⟨c4_keypress_keeps_cursor_bounded.1
      (Editor.mk false (Position.mk 0 0) (Position.mk 0 0)
        (Document.mk ["ab"] false none) "" 3 none none 80 24)
      Key.down (KeyMods.mk false) true
      (Editor.mk false (Position.mk 0 1) (Position.mk 0 0)
        (Document.mk ["ab"] false none) "" 3 none none 80 24)
      [] (Or.inr (Or.inl rfl)) (by decide) (by decide),
   c4_keypress_keeps_cursor_bounded.2.1
      (Editor.mk false (Position.mk 1 0) (Position.mk 0 0)
        (Document.mk ["ab"] false none) "" 3 none none 80 24)
      (KeyMods.mk false) true
      (Editor.mk false (Position.mk 0 1) (Position.mk 0 0)
        (Document.mk ["a", "b"] true none) "" 3 none none 80 24)
      [] rfl (by decide) (by decide),
   c4_keypress_keeps_cursor_bounded.2.2.1
      (Editor.mk false (Position.mk 1 0) (Position.mk 0 0)
        (Document.mk ["ab"] false none) "" 3 none none 80 24)
      'z' (KeyMods.mk false) true
      (Editor.mk false (Position.mk 2 0) (Position.mk 0 0)
        (Document.mk ["azb"] true none) "" 3 none none 80 24)
      [] rfl (by decide) (by decide) (by decide) (by decide) (by decide),
   c4_keypress_keeps_cursor_bounded.2.2.2.1
      (Editor.mk false (Position.mk 1 0) (Position.mk 0 0)
        (Document.mk ["ab"] false none) "" 3 none none 80 24)
      (KeyMods.mk false) true
      (Editor.mk false (Position.mk 1 0) (Position.mk 0 0)
        (Document.mk ["a"] true none) "" 3 none none 80 24)
      [] (by decide) (by decide) (by decide),
   c4_keypress_keeps_cursor_bounded.2.2.2.2
      (Editor.mk false (Position.mk 1 0) (Position.mk 0 0)
        (Document.mk ["ab"] false none) "" 3 none none 80 24)
      (KeyMods.mk false) true
      (Editor.mk false (Position.mk 0 0) (Position.mk 0 0)
        (Document.mk ["b"] true none) "" 3 none none 80 24)
      [] rfl (by decide) (by decide)⟩

/-- Claim C5 (confirmed): for every editor state with positive viewport
width and height (all coordinates being usize values), after
Editor::scroll the cursor lies inside the visible rectangle:
offset.y at most cursor.y, cursor.y below offset.y plus height, and the
symmetric bounds on the column. -/
theorem c5_scroll_keeps_cursor_visible : ∀ st : Editor,
    0 < st.termWidth → st.termWidth ≤ USIZE_MAX →
    0 < st.termHeight → st.termHeight ≤ USIZE_MAX →
    st.cursor_position.x ≤ USIZE_MAX → st.cursor_position.y ≤ USIZE_MAX →
    (Editor.scroll st).offset.y ≤ st.cursor_position.y ∧
    st.cursor_position.y < (Editor.scroll st).offset.y + st.termHeight ∧
    (Editor.scroll st).offset.x ≤ st.cursor_position.x ∧
    st.cursor_position.x < (Editor.scroll st).offset.x + st.termWidth := by
  intro st hw hwM hh hhM hx hy
  unfold Editor.scroll
  simp only [usatAdd, USIZE_MAX] at *
  split_ifs <;> simp_all <;> omega

/-- Witness for claim C5: the scroll bound at a concrete state whose cursor
lies far outside the previous viewport. -/
theorem c5_scroll_keeps_cursor_visible_witness :
    (Editor.scroll (Editor.mk false (Position.mk 100 50) (Position.mk 0 0)
      (Document.mk ["a"] false none) "" 3 none none 80 24)).offset.y
      ≤ (Editor.mk false (Position.mk 100 50) (Position.mk 0 0)
        (Document.mk ["a"] false none) "" 3 none none 80 24).cursor_position.y ∧
    (Editor.mk false (Position.mk 100 50) (Position.mk 0 0)
      (Document.mk ["a"] false none) "" 3 none none 80 24).cursor_position.y
      < (Editor.scroll (Editor.mk false (Position.mk 100 50) (Position.mk 0 0)
          (Document.mk ["a"] false none) "" 3 none none 80 24)).offset.y
        + (Editor.mk false (Position.mk 100 50) (Position.mk 0 0)
          (Document.mk ["a"] false none) "" 3 none none 80 24).termHeight ∧
    (Editor.scroll (Editor.mk false (Position.mk 100 50) (Position.mk 0 0)
      (Document.mk ["a"] false none) "" 3 none none 80 24)).offset.x
      ≤ (Editor.mk false (Position.mk 100 50) (Position.mk 0 0)
        (Document.mk ["a"] false none) "" 3 none none 80 24).cursor_position.x ∧
    (Editor.mk false (Position.mk 100 50) (Position.mk 0 0)
      (Document.mk ["a"] false none) "" 3 none none 80 24).cursor_position.x
      < (Editor.scroll (Editor.mk false (Position.mk 100 50) (Position.mk 0 0)
          (Document.mk ["a"] false none) "" 3 none none 80 24)).offset.x
        + (Editor.mk false (Position.mk 100 50) (Position.mk 0 0)
          (Document.mk ["a"] false none) "" 3 none none 80 24).termWidth :=
  c5_scroll_keeps_cursor_visible
    (Editor.mk false (Position.mk 100 50) (Position.mk 0 0)
      (Document.mk ["a"] false none) "" 3 none none 80 24)
    (by decide) (by decide) (by decide) (by decide) (by decide) (by decide)

/-- Claim C6 counterexample: dispatching the command-line text save does
NOT perform a save: it falls through to the unknown-command arm, producing
the status Unknown command: save and leaving the buffer, dirty flag and
missing file identity untouched, refuting the claim that save acts like w. -/
theorem c6_save_text_is_unknown_command :
    (Editor.execute_command
      (Editor.mk false (Position.mk 0 0) (Position.mk 0 0)
        (Document.mk ["a"] true none) "" 3 none none 80 24)
      [] true "save").map
      (fun p => (p.1.status_message, p.1.document.rows, p.1.document.dirty,
        p.1.document.file_name))
      = some ("Unknown command: save", ["a"], true, none) := by
  decide

/-- Claim C6 (amended): only the literal tokens help, h, ?, q, q!, w and wq
are recognized; any other command text — including save — produces the
status Unknown command followed by the text, and returns the editor
otherwise unchanged (buffer, dirty flag and file identity untouched). -/
theorem c6_unknown_command_text : ∀ (st : Editor) (keys : List Input)
    (ok : Bool) (cmd : String),
    (rustTrim cmd ≠ "help" ∧ rustTrim cmd ≠ "h" ∧ rustTrim cmd ≠ "?" ∧
     rustTrim cmd ≠ "q" ∧ rustTrim cmd ≠ "q!" ∧ rustTrim cmd ≠ "w" ∧
     rustTrim cmd ≠ "wq") →
    Editor.execute_command st keys ok cmd
      = some ({ st with status_message := "Unknown command: " ++ cmd }, keys) := by
  intro st keys ok cmd h
  obtain ⟨h1, h2, h3, h4, h5, h6, h7⟩ := h
  unfold Editor.execute_command
  split
  all_goals simp_all

/-- Witness for claim C6: the amended theorem applied to the command text
save. -/
theorem c6_unknown_command_text_witness :
    Editor.execute_command
      (Editor.mk false (Position.mk 0 0) (Position.mk 0 0)
        (Document.mk ["a"] true none) "" 3 none none 80 24)
      [] true "save"
      = some ({ Editor.mk false (Position.mk 0 0) (Position.mk 0 0)
          (Document.mk ["a"] true none) "" 3 none none 80 24 with
          status_message := "Unknown command: " ++ "save" }, []) :=
  c6_unknown_command_text
    (Editor.mk false (Position.mk 0 0) (Position.mk 0 0)
      (Document.mk ["a"] true none) "" 3 none none 80 24)
    [] true "save" (by decide)

/-- Claim C7 counterexample: a file name matching no mapping entry and no
built-in extension resolves to the default profile, but its display name is
No filetype with a capital N — not the claimed lowercase no filetype. -/
theorem c7_default_name_is_capitalized :
    mappingResult none "main.zzz" = none ∧
    (rustPathExt "main.zzz").map asciiLower = some "zzz" ∧
    FileType.fromName none "main.zzz" = FileType.default ∧
    (FileType.fromName none "main.zzz").name ≠ "no filetype" := by
  decide

/-- Claim C7 (amended): for every file name whose extension, basename and
path match no entry of the external mapping and whose extension is none of
the built-in table, FileType::from returns the default profile: display
name No filetype (capitalized) and highlighting options with every lexical
category disabled and empty keyword lists. -/
theorem c7_unmatched_gives_default_profile : ∀ (mapping : Option String)
    (fname : String),
    mappingResult mapping fname = none →
    ((rustPathExt fname).map asciiLower).elim True (fun e => e ∉ builtinExts) →
    FileType.fromName mapping fname = FileType.default ∧
    FileType.default
      = FileType.mk "No filetype"
          (HighlightingOptions.mk false false false false false [] []) := by
  intro mapping fname h1 h2
  refine ⟨?_, rfl⟩
  unfold FileType.fromName
  rw [h1]
  cases hext : (rustPathExt fname).map asciiLower with
  | none => rfl
  | some e =>
    rw [hext] at h2
    simp only [Option.elim] at h2
    show builtinFor (some e) = FileType.default
    unfold builtinFor
    exact builtinForExt_not_mem e h2

/-- Witness for claim C7: the amended theorem at the unmatched name
main.zzz with no mapping file. -/
theorem c7_unmatched_gives_default_profile_witness :
    FileType.fromName none "main.zzz" = FileType.default ∧
    FileType.default
      = FileType.mk "No filetype"
          (HighlightingOptions.mk false false false false false [] []) :=
  c7_unmatched_gives_default_profile none "main.zzz" (by decide)
    (by decide : ("zzz" : String) ∉ builtinExts)

/-- Claim C8 (confirmed): while the command buffer is open, a character
keypress other than the Control-s shortcut appends to the command text, and
a Backspace keypress removes its last character; in both cases the
resulting editor differs from the previous one in the command buffer ONLY —
document rows, dirty flag and edit cursor included — provided the quit
counter is at its resting value and the viewport offset is already
consistent with the cursor (as the end of every keypress guarantees). -/
theorem c8_command_mode_touches_only_buffer : ∀ (st : Editor) (b : String)
    (m : KeyMods) (keys : List Input) (ok : Bool),
    st.command_buffer = some b → st.quit_times = QUIT_TIMES →
    Editor.scroll st = st →
    (∀ c : Char, ¬ (c = 's' ∧ m.ctrl = true) →
      Editor.process_keypress st ((Key.char c, m) :: keys) ok
        = some ({ st with command_buffer := some (b.push c) }, keys)) ∧
    Editor.process_keypress st ((Key.backspace, m) :: keys) ok
      = some ({ st with command_buffer := some (b.dropRight 1) }, keys) := by
  intro st b m keys ok hcb hqt hscroll
  constructor
  · intro c hc
    simp only [Editor.process_keypress, hcb, Option.isNone_some, Bool.false_eq_true,
      and_false, if_false, if_neg hc, Option.map]
    rw [scroll_set_command_buffer, hscroll]
    simp only [hqt]
    simp
  · simp only [Editor.process_keypress, hcb, Option.map]
    rw [scroll_set_command_buffer, hscroll]
    simp only [hqt]
    simp

/-- Witness for claim C8: a concrete command-mode editor receiving the
character a and a Backspace. -/
theorem c8_command_mode_touches_only_buffer_witness :
    Editor.process_keypress
      (Editor.mk false (Position.mk 0 0) (Position.mk 0 0)
        (Document.mk ["a"] true none) "" 3 none (some "x") 80 24)
      [(Key.char 'a', KeyMods.mk false)] true
      = some ({ Editor.mk false (Position.mk 0 0) (Position.mk 0 0)
          (Document.mk ["a"] true none) "" 3 none (some "x") 80 24 with
          command_buffer := some ("x".push 'a') }, []) ∧
    Editor.process_keypress
      (Editor.mk false (Position.mk 0 0) (Position.mk 0 0)
        (Document.mk ["a"] true none) "" 3 none (some "x") 80 24)
      [(Key.backspace, KeyMods.mk false)] true
      = some ({ Editor.mk false (Position.mk 0 0) (Position.mk 0 0)
          (Document.mk ["a"] true none) "" 3 none (some "x") 80 24 with
          command_buffer := some ("x".dropRight 1) }, []) :=
  ⟨(c8_command_mode_touches_only_buffer
      (Editor.mk false (Position.mk 0 0) (Position.mk 0 0)
        (Document.mk ["a"] true none) "" 3 none (some "x") 80 24)
      "x" (KeyMods.mk false) [] true rfl rfl (by decide)).1 'a' (by decide),
   (c8_command_mode_touches_only_buffer
      (Editor.mk false (Position.mk 0 0) (Position.mk 0 0)
        (Document.mk ["a"] true none) "" 3 none (some "x") 80 24)
      "x" (KeyMods.mk false) [] true rfl rfl (by decide)).2⟩

/-- Claim C9 (confirmed): the prompt returns None exactly when the
accumulated text is empty at loop exit — Escape erases the text before
breaking, and Enter breaks with whatever has accumulated, so an empty
confirmed input is indistinguishable from a cancelled one; consequently a
prompt phase yielding None makes Editor::search restore the cursor to the
position recorded at search start, and makes Editor::save of a nameless
document abort with an "aborted" status. -/
theorem c9_empty_prompt_none_and_cancel_effects :
    (∀ (s : Type) (cb : s → Editor → Key → KeyMods → String → s × Editor)
       (ptext : String) (cs : s) (st : Editor) (keys : List Input)
       (r : s × Editor × String × List Input),
       promptGo cb ptext cs st "" keys = some r →
       (editorPrompt cb ptext cs st keys
          = some (r.1, { r.2.1 with status_message := "" },
              if r.2.2.1.isEmpty then none else some r.2.2.1, r.2.2.2) ∧
        ((if r.2.2.1.isEmpty then (none : Option String) else some r.2.2.1) = none ↔
          r.2.2.1 = ""))) ∧
    (∀ (s : Type) (cb : s → Editor → Key → KeyMods → String → s × Editor)
       (ptext : String) (cs : s) (st : Editor) (acc : String) (m : KeyMods)
       (rest : List Input),
       promptGo cb ptext cs st acc ((Key.esc, m) :: rest)
         = some (cs, { st with status_message := ptext ++ acc }, "", rest)) ∧
    (∀ (st : Editor) (keys : List Input) (d : SearchDirection) (st1 : Editor)
       (rest : List Input),
       editorPrompt searchCb "Search (ESC to cancel, Arrows to navigate): "
         SearchDirection.forward st keys = some (d, st1, none, rest) →
       ∃ st2, Editor.search st keys = some (st2, rest) ∧
         st2.cursor_position = st.cursor_position) ∧
    (∀ (st : Editor) (keys : List Input) (ok : Bool) (st1 : Editor)
       (rest : List Input),
       st.document.file_name = none →
       editorPrompt trivialCb "name: " () st keys = some ((), st1, none, rest) →
       Editor.save st keys ok
         = some ({ st with status_message := "aborted" }, rest)) := by
  refine ⟨?_, ?_, ?_, ?_⟩
  · intro s cb ptext cs st keys r hgo
    constructor
    · unfold editorPrompt
      rw [hgo]
      rfl
    · cases hemp : r.2.2.1.isEmpty with
      | true =>
        constructor
        · intro _
          exact (String.isEmpty_iff _).mp hemp
        · intro _
          simp
      | false =>
        rw [if_neg Bool.false_ne_true]
        constructor
        · intro hc; exact absurd hc (by simp)
        · intro he; rw [he] at hemp; exact absurd hemp (by decide)
  · intro s cb ptext cs st acc m rest
    rfl
  · intro st keys d st1 rest hp
    unfold Editor.search
    rw [hp]
    exact ⟨_, rfl, rfl⟩
  · intro st keys ok st1 rest hname hp
    exact save_abort_general st keys ok st1 rest hname hp

/-- Witness for claim C9: all four parts on concrete states — a prompt
confirmed while still empty, a prompt cancelled mid-typing, a cancelled
search, and a cancelled save of a nameless document. -/
theorem c9_empty_prompt_none_and_cancel_effects_witness :
    (editorPrompt trivialCb "p: " ()
        (Editor.mk false (Position.mk 0 0) (Position.mk 0 0)
          (Document.mk ["a"] false none) "" 3 none none 80 24)
        [(Key.enter, KeyMods.mk false)]
        = some ((), { Editor.mk false (Position.mk 0 0) (Position.mk 0 0)
            (Document.mk ["a"] false none) "" 3 none none 80 24 with
            status_message := "" },
          if ("" : String).isEmpty then none else some "", []) ∧
     ((if ("" : String).isEmpty then (none : Option String) else some "") = none ↔
       ("" : String) = "")) ∧
    promptGo trivialCb "p: " ()
      (Editor.mk false (Position.mk 0 0) (Position.mk 0 0)
        (Document.mk ["a"] false none) "" 3 none none 80 24)
      "ab" [(Key.esc, KeyMods.mk false)]
      = some ((), { Editor.mk false (Position.mk 0 0) (Position.mk 0 0)
          (Document.mk ["a"] false none) "" 3 none none 80 24 with
          status_message := "p: " ++ "ab" }, "", []) ∧
    (∃ st2, Editor.search
      (Editor.mk false (Position.mk 3 0) (Position.mk 0 0)
        (Document.mk ["abcd"] false none) "" 3 none none 80 24)
      [(Key.esc, KeyMods.mk false)] = some (st2, []) ∧
      st2.cursor_position
        = (Editor.mk false (Position.mk 3 0) (Position.mk 0 0)
          (Document.mk ["abcd"] false none) "" 3 none none 80 24).cursor_position) ∧
    Editor.save
      (Editor.mk false (Position.mk 0 0) (Position.mk 0 0)
        (Document.mk ["a"] true none) "" 3 none none 80 24)
      [(Key.esc, KeyMods.mk false)] true
      = some ({ Editor.mk false (Position.mk 0 0) (Position.mk 0 0)
          (Document.mk ["a"] true none) "" 3 none none 80 24 with
          status_message := "aborted" }, []) :=
  ⟨c9_empty_prompt_none_and_cancel_effects.1 Unit trivialCb "p: " ()
      (Editor.mk false (Position.mk 0 0) (Position.mk 0 0)
        (Document.mk ["a"] false none) "" 3 none none 80 24)
      [(Key.enter, KeyMods.mk false)]
      ((), { Editor.mk false (Position.mk 0 0) (Position.mk 0 0)
          (Document.mk ["a"] false none) "" 3 none none 80 24 with
          status_message := "p: " ++ "" }, "", []) (by decide),
   c9_empty_prompt_none_and_cancel_effects.2.1 Unit trivialCb "p: " ()
      (Editor.mk false (Position.mk 0 0) (Position.mk 0 0)
        (Document.mk ["a"] false none) "" 3 none none 80 24)
      "ab" (KeyMods.mk false) [],
   c9_empty_prompt_none_and_cancel_effects.2.2.1
      (Editor.mk false (Position.mk 3 0) (Position.mk 0 0)
        (Document.mk ["abcd"] false none) "" 3 none none 80 24)
      [(Key.esc, KeyMods.mk false)] SearchDirection.forward
      { Editor.mk false (Position.mk 3 0) (Position.mk 0 0)
          (Document.mk ["abcd"] false none) "" 3 none none 80 24 with
        status_message := "" }
      [] (by decide),
   c9_empty_prompt_none_and_cancel_effects.2.2.2
      (Editor.mk false (Position.mk 0 0) (Position.mk 0 0)
        (Document.mk ["a"] true none) "" 3 none none 80 24)
      [(Key.esc, KeyMods.mk false)] true
      (Editor.mk false (Position.mk 0 0) (Position.mk 0 0)
        (Document.mk ["a"] true none) "" 3 none none 80 24)
      [] (by decide) (by decide)⟩

/-- Claim C10 (confirmed): in the format prompt of the save-as flow every
answer is trimmed, ASCII-lowercased and stripped of leading dots, any
result other than exactly txt, docx or odt is replaced by txt (an empty or
cancelled answer also gives txt), and the chosen extension is always one of
the three; consequently a save-as of a dot-free base name produces a file
name carrying the chosen extension, which ends in .txt, .docx or .odt. -/
theorem c10_format_prompt_normalization :
    (∀ e : Option String,
      chosenExt e = "txt" ∨ chosenExt e = "docx" ∨ chosenExt e = "odt") ∧
    (∀ s : String,
      chosenExt (some s) = normalizeExtChoice
        (if rustStartsWith (asciiLower (rustTrim s)) "." then
          String.mk ((asciiLower (rustTrim s)).data.dropWhile (fun c => c = '.'))
        else asciiLower (rustTrim s))) ∧
    (∀ e2 : String, e2 ≠ "txt" → e2 ≠ "docx" → e2 ≠ "odt" →
      normalizeExtChoice e2 = "txt") ∧
    (∀ (st : Editor) (keys : List Input) (ok : Bool) (st1 : Editor)
      (base : String) (rest1 : List Input) (st2 : Editor) (ans : Option String)
      (rest2 : List Input),
      st.document.file_name = none →
      editorPrompt trivialCb "name: " () st keys = some ((), st1, some base, rest1) →
      rustContainsChar base '.' = false →
      editorPrompt trivialCb "(txt/docx/odt): " () st1 rest1
        = some ((), st2, ans, rest2) →
      ∃ st3, Editor.save st keys ok = some (st3, rest2) ∧
        st3.document.file_name = some (base ++ "." ++ chosenExt ans) ∧
        (List.IsSuffix (String.data ".txt")
            (String.data (base ++ "." ++ chosenExt ans)) ∨
         List.IsSuffix (String.data ".docx")
            (String.data (base ++ "." ++ chosenExt ans)) ∨
         List.IsSuffix (String.data ".odt")
            (String.data (base ++ "." ++ chosenExt ans)))) := by
  refine ⟨?_, ?_, ?_, ?_⟩
  · intro e
    cases e with
    | none => left; rfl
    | some s => exact normalizeExtChoice_cases _
  · intro s
    rfl
  · intro e2 h1 h2 h3
    exact normalizeExtChoice_other e2 h1 h2 h3
  · intro st keys ok st1 base rest1 st2 ans rest2 hname hp1 hbase hp2
    have hsuf : ∀ ext : String,
        List.IsSuffix (String.data ("." ++ ext))
          (String.data (base ++ "." ++ ext)) := by
      intro ext
      rw [String.data_append, String.data_append, String.data_append,
        List.append_assoc]
      exact List.suffix_append _ _
    have hchoice : chosenExt ans = "txt" ∨ chosenExt ans = "docx" ∨
        chosenExt ans = "odt" := by
      cases ans with
      | none => left; rfl
      | some s => exact normalizeExtChoice_cases _
    have hsave : Editor.save st keys ok
        = some (finishSave { st2 with document :=
            { st2.document with
              file_name := some (base ++ "." ++ chosenExt ans) } } ok,
          rest2) := by
      unfold Editor.save
      rw [hname, hp1]
      simp only [hbase, Bool.false_eq_true, if_false, hp2]
    refine ⟨_, hsave, ?_, ?_⟩
    · cases ok <;> simp [finishSave, Document.save]
    · rcases hchoice with hch | hch | hch <;> rw [hch]
      · left; exact hsuf "txt"
      · right; left; exact hsuf "docx"
      · right; right; exact hsuf "odt"

/-- Witness for claim C10: the four parts at concrete inputs — a dotted
uppercase answer, a plain answer, a rejected answer, and a full nameless
save with base foo and answer md that lands on foo.txt. -/
theorem c10_format_prompt_normalization_witness :
    (chosenExt (some " .ODT ") = "txt" ∨ chosenExt (some " .ODT ") = "docx" ∨
     chosenExt (some " .ODT ") = "odt") ∧
    chosenExt (some "md") = normalizeExtChoice
      (if rustStartsWith (asciiLower (rustTrim "md")) "." then
        String.mk ((asciiLower (rustTrim "md")).data.dropWhile (fun c => c = '.'))
      else asciiLower (rustTrim "md")) ∧
    normalizeExtChoice "md" = "txt" ∧
    (∃ st3, Editor.save
      (Editor.mk false (Position.mk 0 0) (Position.mk 0 0)
        (Document.mk ["a"] true none) "" 3 none none 80 24)
      [(Key.char 'f', KeyMods.mk false), (Key.char 'o', KeyMods.mk false),
       (Key.char 'o', KeyMods.mk false), (Key.enter, KeyMods.mk false),
       (Key.char 'm', KeyMods.mk false), (Key.char 'd', KeyMods.mk false),
       (Key.enter, KeyMods.mk false)] true = some (st3, []) ∧
      st3.document.file_name = some ("foo" ++ "." ++ chosenExt (some "md")) ∧
      (List.IsSuffix (String.data ".txt")
          (String.data ("foo" ++ "." ++ chosenExt (some "md"))) ∨
       List.IsSuffix (String.data ".docx")
          (String.data ("foo" ++ "." ++ chosenExt (some "md"))) ∨
       List.IsSuffix (String.data ".odt")
          (String.data ("foo" ++ "." ++ chosenExt (some "md"))))) :=
  ⟨c10_format_prompt_normalization.1 (some " .ODT "),
   c10_format_prompt_normalization.2.1 "md",
   c10_format_prompt_normalization.2.2.1 "md" (by decide) (by decide) (by decide),
   c10_format_prompt_normalization.2.2.2
      (Editor.mk false (Position.mk 0 0) (Position.mk 0 0)
        (Document.mk ["a"] true none) "" 3 none none 80 24)
      [(Key.char 'f', KeyMods.mk false), (Key.char 'o', KeyMods.mk false),
       (Key.char 'o', KeyMods.mk false), (Key.enter, KeyMods.mk false),
       (Key.char 'm', KeyMods.mk false), (Key.char 'd', KeyMods.mk false),
       (Key.enter, KeyMods.mk false)] true
      (Editor.mk false (Position.mk 0 0) (Position.mk 0 0)
        (Document.mk ["a"] true none) "" 3 none none 80 24)
      "foo"
      [(Key.char 'm', KeyMods.mk false), (Key.char 'd', KeyMods.mk false),
       (Key.enter, KeyMods.mk false)]
      (Editor.mk false (Position.mk 0 0) (Position.mk 0 0)
        (Document.mk ["a"] true none) "" 3 none none 80 24)
      (some "md") [] (by decide) (by decide) (by decide) (by decide)⟩

end Wd40
